import Mathlib

set_option maxRecDepth 40000

/-!
# Verification of the calendar MCP server's mapping layer

A shallow embedding, in Lean 4, of the mapping layer of the
`calendar-mcp` server: the date/text utilities, the per-operation
script builders, the tool dispatcher with its argument validation,
and the response envelope.  Instants are modelled as `Int`
milliseconds since the Unix epoch; the external `osascript`
execution channel is an oracle parameter (`Exec`); the host time
zone is taken to be UTC throughout.
-/

namespace CalendarMCP

/-! ## Date model

The JavaScript `Date` builtin (used by `parseDate`, `formatISODate`,
`toISOString`, `toLocaleString`) is platform code, not part of the
repository's sources, so it is modelled from the spec: ISO-8601
date-only or date-time strings, with or without offset/zone, parse to
an instant; anything else is unparseable.  Dates without a zone
designator are interpreted in the host time zone, modelled as UTC.
Years are restricted to 1 ≤ year ≤ 9999 (four digits).
-/

/-- Numeric value of an ASCII digit, `none` for any other character. -/
def digitVal (c : Char) : Option Nat :=
  if c.isDigit then some (c.toNat - 48) else none

/-- Parse exactly `n` ASCII digits from the front of `cs`, most
significant first, accumulating onto `acc`. -/
def parseNDigits : Nat → List Char → Nat → Option (Nat × List Char)
  | 0, cs, acc => some (acc, cs)
  | n + 1, c :: cs, acc =>
    match digitVal c with
    | some d => parseNDigits n cs (acc * 10 + d)
    | none => none
  | _ + 1, [], _ => none

/-- Consume one expected character. -/
def expectChar (c : Char) : List Char → Option (List Char)
  | c' :: cs => if c' = c then some cs else none
  | [] => none

/-- Gregorian leap-year test. -/
def isLeapYear (y : Nat) : Bool :=
  (y % 4 == 0 && y % 100 != 0) || (y % 400 == 0)

/-- Number of days in month `m` (1–12) of year `y`. -/
def daysInMonth (y m : Nat) : Nat :=
  if m = 2 then (if isLeapYear y then 29 else 28)
  else if m = 4 || m = 6 || m = 9 || m = 11 then 30
  else 31

/-- Day number (days since 1970-01-01) of the civil date `y-m-d`,
proleptic Gregorian, for `y ≥ 1`. -/
def civilToDayNumber (y m d : Nat) : Int :=
  let yy := if m ≤ 2 then y - 1 else y
  let era := yy / 400
  let yoe := yy % 400
  let mp := (m + 9) % 12
  let doy := (153 * mp + 2) / 5 + d - 1
  let doe := yoe * 365 + yoe / 4 - yoe / 100 + doy
  ((era * 146097 + doe : Nat) : Int) - 719468

/-- Civil date `(y, m, d)` of the day number `z` (days since
1970-01-01), valid for dates from year 1 on. -/
def civilFromDayNumber (z : Int) : Nat × Nat × Nat :=
  let zz := (z + 719468).toNat
  let era := zz / 146097
  let doe := zz % 146097
  let yoe := (doe - doe / 1460 + doe / 36524 - doe / 146096) / 365
  let y := yoe + era * 400
  let doy := doe - (365 * yoe + yoe / 4 - yoe / 100)
  let mp := (5 * doy + 2) / 153
  let d := doy - (153 * mp + 2) / 5 + 1
  let m := if mp < 10 then mp + 3 else mp - 9
  (if m ≤ 2 then y + 1 else y, m, d)

/-- Modelled from the spec: zone designator of an ISO-8601 date-time —
absent (host local time, modelled as UTC), `Z`, or `±HH:MM`.  Returns
the offset from UTC in milliseconds. -/
def parseZone : List Char → Option Int
  | [] => some 0
  | ['Z'] => some 0
  | '+' :: cs => do
    let (h, c1) ← parseNDigits 2 cs 0
    let c2 ← expectChar ':' c1
    let (mi, c3) ← parseNDigits 2 c2 0
    guard (c3 = [] ∧ h ≤ 23 ∧ mi ≤ 59)
    pure (((h * 60 + mi) * 60000 : Nat) : Int)
  | '-' :: cs => do
    let (h, c1) ← parseNDigits 2 cs 0
    let c2 ← expectChar ':' c1
    let (mi, c3) ← parseNDigits 2 c2 0
    guard (c3 = [] ∧ h ≤ 23 ∧ mi ≤ 59)
    pure (-(((h * 60 + mi) * 60000 : Nat) : Int))
  | _ => none

/-- Modelled from the spec: time part `HH:MM`, `HH:MM:SS` or
`HH:MM:SS.mmm` of an ISO-8601 date-time.  Yields
`(hour, minute, second, millisecond, rest)`. -/
def parseTimePart (cs : List Char) : Option (Nat × Nat × Nat × Nat × List Char) := do
  let (h, c1) ← parseNDigits 2 cs 0
  let c2 ← expectChar ':' c1
  let (mi, c3) ← parseNDigits 2 c2 0
  match c3 with
  | ':' :: c4 => do
    let (s, c5) ← parseNDigits 2 c4 0
    match c5 with
    | '.' :: c6 => do
      let (ms, c7) ← parseNDigits 3 c6 0
      pure (h, mi, s, ms, c7)
    | _ => pure (h, mi, s, 0, c5)
  | _ => pure (h, mi, 0, 0, c3)

/-- Modelled from the spec: the JavaScript `new Date(string)`
constructor as the spec describes it — accepts ISO-8601 date-only or
date-time strings (with or without offset/zone) and yields the instant
in milliseconds since the epoch; any other input is unparseable
(`none`, the model of an invalid `Date`). -/
def jsDateParse (s : String) : Option Int := do
  let cs := s.data
  let (y, c1) ← parseNDigits 4 cs 0
  let c2 ← expectChar '-' c1
  let (mo, c3) ← parseNDigits 2 c2 0
  let c4 ← expectChar '-' c3
  let (d, c5) ← parseNDigits 2 c4 0
  guard (1 ≤ y ∧ 1 ≤ mo ∧ mo ≤ 12 ∧ 1 ≤ d ∧ d ≤ daysInMonth y mo)
  let base := civilToDayNumber y mo d * 86400000
  match c5 with
  | [] => pure base
  | 'T' :: c6 => do
    let (h, mi, se, ms, c7) ← parseTimePart c6
    guard (h ≤ 23 ∧ mi ≤ 59 ∧ se ≤ 59)
    let z ← parseZone c7
    pure (base + (((h * 3600 + mi * 60 + se) * 1000 + ms : Nat) : Int) - z)
  | _ => none

/-- Left-pad the decimal rendering of `n` with zeros to width `w`. -/
def padNum (w n : Nat) : String :=
  let s := toString n
  if s.length < w then String.mk (List.replicate (w - s.length) '0') ++ s
  else s

/-- Modelled from the spec: JavaScript `Date.prototype.toISOString` —
ISO-8601, UTC designator, millisecond precision. -/
def toISOString (t : Int) : String :=
  let msOfDay := (Int.emod t 86400000).toNat
  let day := Int.ediv t 86400000
  match civilFromDayNumber day with
  | (y, m, d) =>
    padNum 4 y ++ "-" ++ padNum 2 m ++ "-" ++ padNum 2 d ++ "T" ++
    padNum 2 (msOfDay / 3600000) ++ ":" ++ padNum 2 (msOfDay / 60000 % 60) ++ ":" ++
    padNum 2 (msOfDay / 1000 % 60) ++ "." ++ padNum 3 (msOfDay % 1000) ++ "Z"

/-- English month name, for the `en-US` locale rendering. -/
def monthName : Nat → String
  | 1 => "January" | 2 => "February" | 3 => "March" | 4 => "April"
  | 5 => "May" | 6 => "June" | 7 => "July" | 8 => "August"
  | 9 => "September" | 10 => "October" | 11 => "November" | 12 => "December"
  | _ => ""

/-- `formatDateForAppleScript` from the source: renders an instant via
`toLocaleString("en-US", ...)` — long month name, numeric day and
year, 12-hour clock with AM/PM, 2-digit minute and second — in the
host time zone (modelled as UTC). -/
def formatDateForAppleScript (t : Int) : String :=
  let msOfDay := (Int.emod t 86400000).toNat
  let day := Int.ediv t 86400000
  match civilFromDayNumber day with
  | (y, _m, d) =>
    let hh := msOfDay / 3600000
    let h12 := if hh % 12 = 0 then 12 else hh % 12
    let ampm := if hh < 12 then "AM" else "PM"
    monthName (civilFromDayNumber day).2.1 ++ " " ++ toString d ++ ", " ++ toString y ++
    " at " ++ toString h12 ++ ":" ++ padNum 2 (msOfDay / 60000 % 60) ++ ":" ++
    padNum 2 (msOfDay / 1000 % 60) ++ " " ++ ampm

/-- `parseDate` from the source: `new Date(dateStr)`, `null` when the
result is `NaN`. -/
def parseDate (dateStr : String) : Option Int :=
  jsDateParse dateStr

/-- `formatISODate` from the source: empty string for the empty string
and the `"missing value"` sentinel; otherwise the input re-rendered
through `new Date(...).toISOString()`, or empty string when the input
does not parse.  Total (never raises). -/
def formatISODate (dateStr : String) : String :=
  if dateStr = "" || dateStr = "missing value" then ""
  else
    match jsDateParse dateStr with
    | some t => toISOString t
    | none => ""

/-- `getDateRange` from the source. -/
def getDateRange (startDate endDate : Int) : String × String :=
  (formatDateForAppleScript startDate, formatDateForAppleScript endDate)

/-! ## Script escaping and the AppleScript literal denotation

The source escapes a dynamic value before embedding it in a quoted
AppleScript literal with `value.replace(/"/g, '\\"')` — each quote
character becomes backslash-quote, and nothing else is touched
(`createEvent`, `updateEvent`, `deleteEvent`, `searchEvents`,
`getEvents`).
-/

/-- Character-level form of `.replace(/"/g, '\\"')` from the source:
every `"` becomes `\"`; all other characters pass through. -/
def escQchars : List Char → List Char
  | [] => []
  | c :: rest =>
    if c = '"' then '\\' :: '"' :: escQchars rest
    else c :: escQchars rest

/-- `.replace(/"/g, '\\"')` from the source, on strings. -/
def escapeQuotesOnly (s : String) : String :=
  String.mk (escQchars s.data)

/-- AppleScript's interpretation of a backslash escape inside a string
literal: `\n`, `\r`, `\t` are control characters; any other escaped
character stands for itself (covering `\"` and `\\`). -/
def escInterp (c : Char) : Char :=
  if c = 'n' then '\n'
  else if c = 'r' then '\r'
  else if c = 't' then '\t'
  else c

/-- Denotation of the body of a quoted AppleScript literal: reads the
characters between the quotes.  A bare `"` would terminate the literal
early and a raw line break cannot occur inside a literal, so both make
the body ill-formed (`none`); a trailing lone backslash escapes the
closing quote and is likewise ill-formed. -/
def readLitChars : List Char → Option (List Char)
  | [] => some []
  | '\\' :: rest =>
    match rest with
    | [] => none
    | c2 :: rest2 => (readLitChars rest2).map (fun t => escInterp c2 :: t)
  | c :: rest =>
    if c = '"' || c = '\n' || c = '\r' then none
    else (readLitChars rest).map (fun t => c :: t)

/-- `readLitChars`, on strings. -/
def readLitStr (s : String) : Option String :=
  (readLitChars s.data).map String.mk

/-! ## Substring containment (JavaScript `String.prototype.includes`) -/

/-- `needle` occurs contiguously inside `hay`. -/
def listIsInfix (needle hay : List Char) : Bool :=
  needle.isPrefixOf hay ||
    match hay with
    | [] => false
    | _ :: t => listIsInfix needle t

/-- JavaScript `hay.includes(needle)`. -/
def strContains (hay needle : String) : Bool :=
  listIsInfix needle.data hay.data

/-! ## Execution adapter (`runAppleScript`, `runAppleScriptJSON`)

The `osascript` child process is the external execution channel; it is
modelled as an oracle `run : String → Except String String` taking the
full shell command and returning trimmed-to-be stdout or a failure
message.  `JSON.parse` applied to the script's output is likewise
platform code, modelled by decode oracles.
-/

/-- The fixed user-facing authorization message from `runAppleScript`. -/
def authDeniedMsg : String :=
  "Calendar access denied. Grant permission in System Settings > Privacy & Security > Calendars"

/-- `script.replace(/'/g, "'\\''")` from the source: each single quote
becomes the four-character shell idiom. -/
def shellEscapeChars : List Char → List Char
  | [] => []
  | c :: rest =>
    if c = '\'' then '\'' :: '\\' :: '\'' :: '\'' :: shellEscapeChars rest
    else c :: shellEscapeChars rest

/-- The full shell command submitted to the execution channel. -/
def osascriptCmd (script : String) : String :=
  "osascript -e '" ++ String.mk (shellEscapeChars script.data) ++ "'"

/-- Whitespace stripped by `String.prototype.trim` (the ASCII cases). -/
def isTrimWs (c : Char) : Bool :=
  c = ' ' || c = '\t' || c = '\n' || c = '\r'

/-- `result.stdout.trim()` from the source: strip leading and trailing
whitespace. -/
def jsTrim (s : String) : String :=
  String.mk (((s.data.dropWhile isTrimWs).reverse.dropWhile isTrimWs).reverse)

/-- `runAppleScript` from the source: submit the command; trim stdout
on success; on failure, translate a message containing the
"Not authorized" signal into the fixed authorization message and
propagate every other message unchanged. -/
def runAppleScript (run : String → Except String String) (script : String) :
    Except String String :=
  match run (osascriptCmd script) with
  | .ok out => .ok (jsTrim out)
  | .error msg =>
    if strContains msg "Not authorized" then .error authDeniedMsg
    else .error msg

/-- `CalendarEvent` from the source. -/
structure CalendarEvent where
  id : String
  summary : String
  description : String
  location : String
  startDate : String
  endDate : String
  allDay : Bool
  calendar : String
  url : String
  status : String
deriving DecidableEq

/-- `CalendarInfo` from the source. -/
structure CalendarInfo where
  id : String
  name : String
  color : String
  writable : Bool
deriving DecidableEq

/-- The external execution channel and the platform `JSON.parse`,
as oracles: `run` executes a shell command; `decodeEvents` /
`decodeCalendars` give the structured value that `JSON.parse`
produces from the script's (nonempty) output. -/
structure Exec where
  run : String → Except String String
  decodeEvents : String → List CalendarEvent
  decodeCalendars : String → List CalendarInfo

/-- `runAppleScriptJSON` from the source, at event-list type: empty
output is the zero-result case (empty list), nonempty output is
decoded. -/
def runAppleScriptJSONEvents (ex : Exec) (script : String) :
    Except String (List CalendarEvent) :=
  match runAppleScript ex.run script with
  | .error e => .error e
  | .ok raw => .ok (if raw = "" then [] else ex.decodeEvents raw)

/-- `runAppleScriptJSON` from the source, at calendar-list type. -/
def runAppleScriptJSONCalendars (ex : Exec) (script : String) :
    Except String (List CalendarInfo) :=
  match runAppleScript ex.run script with
  | .error e => .error e
  | .ok raw => .ok (if raw = "" then [] else ex.decodeCalendars raw)

/-! ## Event-list post-processing (`getEvents` / `searchEvents` tail)

Both operations end with
`.map(e => ({...e, startDate: formatISODate(e.startDate), endDate:
formatISODate(e.endDate)})).sort((a, b) => new Date(a.startDate) - new
Date(b.startDate))`.  `Array.prototype.sort` is stable, so with the
numeric comparator it is modelled by `List.mergeSort` under the
instant order.  An invalid date gives `NaN` in JavaScript, which makes
the comparator inconsistent; such keys are modelled as `none`,
ordered least — the sortedness theorem therefore assumes every item's
start field parses. -/

/-- JavaScript truthiness of an optional string argument: `undefined`
and the empty string are falsy. -/
def truthy : Option String → Bool
  | none => false
  | some s => !(s == "")

/-- The comparator key: `new Date(e.startDate).getTime()`, `none` for
`NaN`. -/
def jsStartKey (e : CalendarEvent) : Option Int :=
  parseDate e.startDate

/-- Order on comparator keys; `none` (the model of `NaN`) is placed
least, a choice only exercised outside the theorems' hypotheses. -/
def optIntLE : Option Int → Option Int → Bool
  | none, _ => true
  | some _, none => false
  | some a, some b => a ≤ b

/-- The sort comparator of `getEvents` / `searchEvents`. -/
def eventLE (a b : CalendarEvent) : Bool :=
  optIntLE (jsStartKey a) (jsStartKey b)

/-- The per-item map: start/end re-rendered through `formatISODate`. -/
def normalizeEventDates (e : CalendarEvent) : CalendarEvent :=
  { e with startDate := formatISODate e.startDate,
           endDate := formatISODate e.endDate }

/-- The full post-processing of event-list results in
`getEvents` / `searchEvents`. -/
def postProcessEvents (l : List CalendarEvent) : List CalendarEvent :=
  (l.map normalizeEventDates).mergeSort eventLE

/-! ## Script builders -/

/-- Render of a boolean into generated script text. -/
def boolStr (b : Bool) : String :=
  if b then "true" else "false"

/-- JavaScript template interpolation of a possibly-`undefined` string:
`${x}` renders `undefined` as the literal text `"undefined"`. -/
def jsInterpOpt : Option String → String
  | none => "undefined"
  | some s => s

/-- `${calendar?.replace(/"/g, '\\"') || ""}` from `getEvents`. -/
def escQopt (calendar : Option String) : String :=
  (calendar.map escapeQuotesOnly).getD ""

/-- The `on replaceText(...)` AppleScript handler embedded in the
list-shaped scripts. -/
def replaceTextHandler : String :=
  String.intercalate "\n" [
    "    on replaceText(theText, searchStr, replaceStr)",
    "      set AppleScript\x27s text item delimiters to searchStr",
    "      set theItems to text items of theText",
    "      set AppleScript\x27s text item delimiters to replaceStr",
    "      set theText to theItems as text",
    "      set AppleScript\x27s text item delimiters to \"\"",
    "      return theText",
    "    end replaceText"]

/-- The `on toLowerCase(...)` AppleScript handler embedded in the
search script. -/
def toLowerCaseHandler : String :=
  String.intercalate "\n" [
    "    on toLowerCase(theText)",
    "      set lowercaseChars to \"abcdefghijklmnopqrstuvwxyz\"",
    "      set uppercaseChars to \"ABCDEFGHIJKLMNOPQRSTUVWXYZ\"",
    "      set resultText to \"\"",
    "      repeat with c in theText",
    "        set charOffset to offset of c in uppercaseChars",
    "        if charOffset > 0 then",
    "          set resultText to resultText & character charOffset of lowercaseChars",
    "        else",
    "          set resultText to resultText & c",
    "        end if",
    "      end repeat",
    "      return resultText",
    "    end toLowerCase"]

/-- The JSON-emitting body shared by the event-listing scripts. -/
def eventEmitLines : List String := [
    "            set eSummary to my replaceText(eSummary, \"\\\\\", \"\\\\\\\\\")",
    "            set eSummary to my replaceText(eSummary, \"\\\"\", \"\\\\\\\"\")",
    "            set eSummary to my replaceText(eSummary, return, \"\\\\n\")",
    "            set eDesc to my replaceText(eDesc, \"\\\\\", \"\\\\\\\\\")",
    "            set eDesc to my replaceText(eDesc, \"\\\"\", \"\\\\\\\"\")",
    "            set eDesc to my replaceText(eDesc, return, \"\\\\n\")",
    "            set eLoc to my replaceText(eLoc, \"\\\\\", \"\\\\\\\\\")",
    "            set eLoc to my replaceText(eLoc, \"\\\"\", \"\\\\\\\"\")",
    "",
    "            if matchCount > 0 then set output to output & \",\"",
    "            set output to output & \"\x7b\\\"id\\\":\\\"\" & eId & \"\\\",\"",
    "            set output to output & \"\\\"summary\\\":\\\"\" & eSummary & \"\\\",\"",
    "            set output to output & \"\\\"description\\\":\\\"\" & eDesc & \"\\\",\"",
    "            set output to output & \"\\\"location\\\":\\\"\" & eLoc & \"\\\",\"",
    "            set output to output & \"\\\"startDate\\\":\\\"\" & (eStart as «class isot» as string) & \"\\\",\"",
    "            set output to output & \"\\\"endDate\\\":\\\"\" & (eEnd as «class isot» as string) & \"\\\",\"",
    "            set output to output & \"\\\"allDay\\\":\" & eAllDay & \",\"",
    "            set output to output & \"\\\"calendar\\\":\\\"\" & eCalName & \"\\\",\"",
    "            set output to output & \"\\\"url\\\":\\\"\" & eUrl & \"\\\",\"",
    "            set output to output & \"\\\"status\\\":\\\"\" & eStatus & \"\\\"\x7d\"",
    "            set matchCount to matchCount + 1"]

/-- The `getEvents` script (source lines 197–264), parameterized by the
interpolated values.  Note the target-selection branch: the JavaScript
interpolates `"${calendar}"` — the text `undefined` when the argument
is absent — and compares it with the empty string. -/
def getEventsScript (calendar : Option String) (dr : String × String)
    (limit : Nat) : String :=
  String.intercalate "\n" ([
    "",
    "    tell application \"Calendar\"",
    "      set output to \"[\"",
    "      set startDate to date \"" ++ dr.1 ++ "\"",
    "      set endDate to date \"" ++ dr.2 ++ "\"",
    "      set matchCount to 0",
    "",
    "      if \"" ++ jsInterpOpt calendar ++ "\" is \"\" then",
    "        set targetCals to calendars",
    "      else",
    "        set targetCals to \x7bcalendar \"" ++ escQopt calendar ++ "\"\x7d",
    "      end if",
    "",
    "      repeat with theCal in targetCals",
    "        set calEvents to (events of theCal whose start date ≥ startDate and start date ≤ endDate)",
    "        repeat with e in calEvents",
    "          if matchCount < " ++ toString limit ++ " then",
    "            set eId to uid of e",
    "            set eSummary to summary of e",
    "            set eDesc to description of e",
    "            if eDesc is missing value then set eDesc to \"\"",
    "            set eLoc to location of e",
    "            if eLoc is missing value then set eLoc to \"\"",
    "            set eStart to start date of e",
    "            set eEnd to end date of e",
    "            set eAllDay to allday event of e",
    "            set eCalName to name of theCal",
    "            set eUrl to url of e",
    "            if eUrl is missing value then set eUrl to \"\"",
    "            set eStatus to status of e",
    ""] ++ eventEmitLines ++ [
    "          end if",
    "        end repeat",
    "      end repeat",
    "      set output to output & \"]\"",
    "      return output",
    "    end tell",
    "",
    replaceTextHandler,
    "  "])

/-- Runtime value of the script's target-selection branch: AppleScript
evaluates `if "<interpolated>" is "" then` and either iterates all
calendars or the single calendar named by the (quote-escaped,
possibly empty) second interpolation. -/
inductive TargetCals where
  | all
  | named (name : String)
deriving DecidableEq

/-- Which calendars the generated `getEvents` script iterates, by
evaluating its branch condition. -/
def getEventsTargets (calendar : Option String) : TargetCals :=
  if jsInterpOpt calendar = "" then .all
  else .named (escQopt calendar)

/-- `calendar ? `calendar "..."` : "first calendar"` from
`createEvent`. -/
def calendarTargetClause (calendar : Option String) : String :=
  if truthy calendar then
    "calendar \"" ++ escapeQuotesOnly (calendar.getD "") ++ "\""
  else "first calendar"

/-- The options record of `createEvent`. -/
structure CreateOpts where
  summary : String
  startDate : String
  endDate : Option String := none
  allDay : Bool := false
  calendar : Option String := none
  description : Option String := none
  location : Option String := none
  url : Option String := none
deriving DecidableEq

/-- The `createEvent` script (source lines 320–328). -/
def createEventScript (o : CreateOpts) (start endT : Int) : String :=
  String.intercalate "\n" [
    "",
    "    tell application \"Calendar\"",
    "      set newEvent to make new event at end of events of " ++
      calendarTargetClause o.calendar ++ " with properties \x7bsummary:\"" ++
      escapeQuotesOnly o.summary ++ "\", start date:date \"" ++
      formatDateForAppleScript start ++ "\", end date:date \"" ++
      formatDateForAppleScript endT ++ "\", allday event:" ++ boolStr o.allDay ++ "\x7d",
    "      " ++ (if truthy o.description then
      "set description of newEvent to \"" ++ escapeQuotesOnly (o.description.getD "") ++ "\"" else ""),
    "      " ++ (if truthy o.location then
      "set location of newEvent to \"" ++ escapeQuotesOnly (o.location.getD "") ++ "\"" else ""),
    "      " ++ (if truthy o.url then
      "set url of newEvent to \"" ++ escapeQuotesOnly (o.url.getD "") ++ "\"" else ""),
    "      return uid of newEvent",
    "    end tell",
    "  "]

/-- The update-fields record of `updateEvent`. -/
structure UpdateFields where
  summary : Option String := none
  startDate : Option String := none
  endDate : Option String := none
  description : Option String := none
  location : Option String := none
  allDay : Option Bool := none
deriving DecidableEq

/-- A `!== undefined` guarded update line: present fields always emit
(the empty string included). -/
def optLine (o : Option String) (f : String → String) : List String :=
  match o with
  | some s => [f s]
  | none => []

/-- A truthiness-and-parse guarded date update line (`if (startDate) {
const date = parseDate(startDate); if (date) push(...) }`): falsy or
unparseable dates emit nothing. -/
def dateLine (o : Option String) (f : Int → String) : List String :=
  match o with
  | some s =>
    if s ≠ "" then
      match parseDate s with
      | some d => [f d]
      | none => []
    else []
  | none => []

/-- A `!== undefined` guarded boolean update line. -/
def boolLine (o : Option Bool) (f : Bool → String) : List String :=
  match o with
  | some b => [f b]
  | none => []

/-- The `updateLines` accumulation of `updateEvent` (source lines
352–377): summary/description/location and allDay produce a
set-statement whenever present (`!== undefined`, so the empty string
counts); startDate/endDate produce one only when truthy and parseable
— an unparseable date is silently dropped. -/
def updateLines (u : UpdateFields) : List String :=
  optLine u.summary (fun s => "set summary of theEvent to \"" ++ escapeQuotesOnly s ++ "\"") ++
  optLine u.description (fun s => "set description of theEvent to \"" ++ escapeQuotesOnly s ++ "\"") ++
  optLine u.location (fun s => "set location of theEvent to \"" ++ escapeQuotesOnly s ++ "\"") ++
  dateLine u.startDate (fun d => "set start date of theEvent to date \"" ++ formatDateForAppleScript d ++ "\"") ++
  dateLine u.endDate (fun d => "set end date of theEvent to date \"" ++ formatDateForAppleScript d ++ "\"") ++
  boolLine u.allDay (fun b => "set allday event of theEvent to " ++ boolStr b)

/-- The `updateEvent` script (source lines 383–390). -/
def updateEventScript (eventId calendarName : String) (u : UpdateFields) : String :=
  String.intercalate "\n" [
    "",
    "    tell application \"Calendar\"",
    "      set theCal to calendar \"" ++ escapeQuotesOnly calendarName ++ "\"",
    "      set theEvent to (first event of theCal whose uid is \"" ++
      escapeQuotesOnly eventId ++ "\")",
    "      " ++ String.intercalate "\n      " (updateLines u),
    "      return \"done\"",
    "    end tell",
    "  "]

/-- The `deleteEvent` script (source lines 404–411). -/
def deleteEventScript (eventId calendarName : String) : String :=
  String.intercalate "\n" [
    "",
    "    tell application \"Calendar\"",
    "      set theCal to calendar \"" ++ escapeQuotesOnly calendarName ++ "\"",
    "      set theEvent to (first event of theCal whose uid is \"" ++
      escapeQuotesOnly eventId ++ "\")",
    "      delete theEvent",
    "      return \"done\"",
    "    end tell",
    "  "]

/-- ASCII lowering, modelling `String.prototype.toLowerCase` on the
ASCII range. -/
def toLowerAscii (s : String) : String :=
  String.mk (s.data.map Char.toLower)

/-- The `searchEvents` script (source lines 437–523). -/
def searchEventsScript (escapedQuery : String) (calendar : Option String)
    (dr : String × String) (limit : Nat) : String :=
  String.intercalate "\n" ([
    "",
    "    tell application \"Calendar\"",
    "      set output to \"[\"",
    "      set searchQuery to \"" ++ escapedQuery ++ "\"",
    "      set matchCount to 0",
    "      set startDate to date \"" ++ dr.1 ++ "\"",
    "      set endDate to date \"" ++ dr.2 ++ "\"",
    "",
    "      " ++ (if truthy calendar then
      "set targetCals to \x7bcalendar \"" ++ escapeQuotesOnly (calendar.getD "") ++ "\"\x7d"
      else "set targetCals to calendars"),
    "",
    "      repeat with theCal in targetCals",
    "        set calEvents to (events of theCal whose start date ≥ startDate and start date ≤ endDate)",
    "        repeat with e in calEvents",
    "          if matchCount < " ++ toString limit ++ " then",
    "            set eSummary to summary of e",
    "            set eDesc to description of e",
    "            if eDesc is missing value then set eDesc to \"\"",
    "            set eLoc to location of e",
    "            if eLoc is missing value then set eLoc to \"\"",
    "",
    "            set lowerSummary to my toLowerCase(eSummary)",
    "            set lowerDesc to my toLowerCase(eDesc)",
    "            set lowerLoc to my toLowerCase(eLoc)",
    "",
    "            if lowerSummary contains searchQuery or lowerDesc contains searchQuery or lowerLoc contains searchQuery then",
    "              set eId to uid of e",
    "              set eStart to start date of e",
    "              set eEnd to end date of e",
    "              set eAllDay to allday event of e",
    "              set eCalName to name of theCal",
    "              set eUrl to url of e",
    "              if eUrl is missing value then set eUrl to \"\"",
    "              set eStatus to status of e",
    ""] ++ eventEmitLines ++ [
    "            end if",
    "          end if",
    "        end repeat",
    "      end repeat",
    "      set output to output & \"]\"",
    "      return output",
    "    end tell",
    "",
    toLowerCaseHandler,
    "",
    replaceTextHandler,
    "  "])

/-- The static `getCalendars` script (source lines 123–152). -/
def getCalendarsScript : String :=
  String.intercalate "\n" [
    "",
    "    tell application \"Calendar\"",
    "      set output to \"[\"",
    "      set allCals to calendars",
    "      repeat with i from 1 to count of allCals",
    "        set theCal to item i of allCals",
    "        set calId to uid of theCal",
    "        set calName to name of theCal",
    "        set calColor to color of theCal",
    "        set calWritable to writable of theCal",
    "",
    "        set calName to my replaceText(calName, \"\\\\\", \"\\\\\\\\\")",
    "        set calName to my replaceText(calName, \"\\\"\", \"\\\\\\\"\")",
    "",
    "        if i > 1 then set output to output & \",\"",
    "        set output to output & \"\x7b\\\"id\\\":\\\"\" & calId & \"\\\",\\\"name\\\":\\\"\" & calName & \"\\\",\\\"color\\\":\\\"\" & calColor & \"\\\",\\\"writable\\\":\" & calWritable & \"\x7d\"",
    "      end repeat",
    "      set output to output & \"]\"",
    "      return output",
    "    end tell",
    "",
    replaceTextHandler,
    "  "]

/-! ## Operation functions -/

/-- The start instant `getEvents` resolves: a truthy `startDate`
argument is parsed, otherwise the default is "now". -/
def geStart (startDate : Option String) (now : Int) : Option Int :=
  if truthy startDate then parseDate (startDate.getD "") else some now

/-- The end instant `getEvents` resolves: a truthy `endDate` argument
is parsed, otherwise the default is now + 30 days. -/
def geEnd (endDate : Option String) (now : Int) : Option Int :=
  if truthy endDate then parseDate (endDate.getD "") else some (now + 2592000000)

/-- `getEvents` from the source, with the external channel as oracle
and `new Date()` passed as `now`.  Throws (models `throw new Error`)
`"Invalid date format"` before any external call when either resolved
boundary is null; otherwise runs the script and post-processes. -/
def getEventsRun (ex : Exec) (calendar startDate endDate : Option String)
    (limit : Option Nat) (now : Int) : Except String (List CalendarEvent) :=
  match geStart startDate now, geEnd endDate now with
  | some s, some e =>
    match runAppleScriptJSONEvents ex
        (getEventsScript calendar (getDateRange s e) (limit.getD 100)) with
    | .ok evs => .ok (postProcessEvents evs)
    | .error err => .error err
  | _, _ => .error "Invalid date format"

/-- The result record of `createEvent` / `updateEvent` /
`deleteEvent`: `{ success, id?, error? }`. -/
structure OpResult where
  success : Bool
  id : Option String := none
  error : Option String := none
deriving DecidableEq

/-- `createEvent` from the source: validates both dates (returning a
`success:false` record, not throwing), then runs the script; a script
failure is caught and returned as `success:false` with the message. -/
def createEventRun (ex : Exec) (o : CreateOpts) : OpResult :=
  match parseDate o.startDate with
  | none => ⟨false, none, some "Invalid start date"⟩
  | some start =>
    let endOpt := if truthy o.endDate then parseDate (o.endDate.getD "")
      else some (start + (if o.allDay then 86400000 else 3600000))
    match endOpt with
    | none => ⟨false, none, some "Invalid end date"⟩
    | some endT =>
      match runAppleScript ex.run (createEventScript o start endT) with
      | .ok id => ⟨true, some id, none⟩
      | .error e => ⟨false, none, some e⟩

/-- `updateEvent` from the source: with zero accumulated update lines
it fails with `"No updates provided"` without any external call;
otherwise it runs the script, catching failures into the record. -/
def updateEventRun (ex : Exec) (eventId calendarName : String)
    (u : UpdateFields) : OpResult :=
  if updateLines u = [] then ⟨false, none, some "No updates provided"⟩
  else
    match runAppleScript ex.run (updateEventScript eventId calendarName u) with
    | .ok _ => ⟨true, none, none⟩
    | .error e => ⟨false, none, some e⟩

/-- `deleteEvent` from the source. -/
def deleteEventRun (ex : Exec) (eventId calendarName : String) : OpResult :=
  match runAppleScript ex.run (deleteEventScript eventId calendarName) with
  | .ok _ => ⟨true, none, none⟩
  | .error e => ⟨false, none, some e⟩

/-- `searchEvents` from the source: lower-cases and escapes the query,
searches the next 365 days, post-processes like `getEvents`. -/
def searchEventsRun (ex : Exec) (query : String) (calendar : Option String)
    (limit : Option Nat) (now : Int) : Except String (List CalendarEvent) :=
  let escapedQuery := escapeQuotesOnly (toLowerAscii query)
  let dr := getDateRange now (now + 31536000000)
  match runAppleScriptJSONEvents ex
      (searchEventsScript escapedQuery calendar dr (limit.getD 50)) with
  | .ok evs => .ok (postProcessEvents evs)
  | .error err => .error err

/-- `PermissionStatus` from the source. -/
structure PermissionStatus where
  calendar : Bool
  details : List String
deriving DecidableEq

/-- `checkPermissions` from the source: a minimal probe script; never
raises. -/
def checkPermissionsRun (ex : Exec) : PermissionStatus :=
  match runAppleScript ex.run "tell application \"Calendar\" to count of calendars" with
  | .ok _ => ⟨true, ["Calendar: accessible"]⟩
  | .error _ => ⟨false, ["Calendar: NOT accessible (grant Calendar permission in System Settings)"]⟩

/-- `getTodayEvents` from the source: local midnight today to local
midnight tomorrow (host time zone modelled as UTC), round-tripped
through ISO strings into `getEvents`. -/
def getTodayEventsRun (ex : Exec) (now : Int) : Except String (List CalendarEvent) :=
  let todayStart := now - Int.emod now 86400000
  getEventsRun ex none (some (toISOString todayStart))
    (some (toISOString (todayStart + 86400000))) none now

/-- `getUpcomingEvents` from the source: now to now + `days` days. -/
def getUpcomingEventsRun (ex : Exec) (days : Nat) (now : Int) :
    Except String (List CalendarEvent) :=
  getEventsRun ex none (some (toISOString now))
    (some (toISOString (now + days * 86400000))) none now

/-! ## JSON rendering (`JSON.stringify(x, null, 2)`)

Modelled from the spec: `JSON.stringify` is platform code; the
renderings below follow its documented output — two-space indentation,
insertion-order keys, fields holding `undefined` omitted. -/

/-- JSON string escaping of one character. -/
def jsonEscChar (c : Char) : List Char :=
  if c = '"' then ['\\', '"']
  else if c = '\\' then ['\\', '\\']
  else if c = '\n' then ['\\', 'n']
  else if c = '\r' then ['\\', 'r']
  else if c = '\t' then ['\\', 't']
  else if c.toNat = 8 then ['\\', 'b']
  else if c.toNat = 12 then ['\\', 'f']
  else if c.toNat < 32 then
    ['\\', 'u', '0', '0',
     (if c.toNat / 16 < 10 then Char.ofNat (48 + c.toNat / 16) else Char.ofNat (87 + c.toNat / 16)),
     (if c.toNat % 16 < 10 then Char.ofNat (48 + c.toNat % 16) else Char.ofNat (87 + c.toNat % 16))]
  else [c]

/-- A JSON string literal for `s`. -/
def jsonQuote (s : String) : String :=
  "\"" ++ String.mk (s.data.foldr (fun c acc => jsonEscChar c ++ acc) []) ++ "\""

/-- `JSON.stringify(result, null, 2)` for the `{ success, id?, error? }`
records returned by create/update/delete. -/
def renderOpResult (r : OpResult) : String :=
  "\x7b\n  \"success\": " ++ boolStr r.success ++
  (match r.id with
   | some i => ",\n  \"id\": " ++ jsonQuote i
   | none => "") ++
  (match r.error with
   | some e => ",\n  \"error\": " ++ jsonQuote e
   | none => "") ++
  "\n\x7d"

/-- One event object at array-element depth. -/
def renderEvent (e : CalendarEvent) : String :=
  "  \x7b\n    \"id\": " ++ jsonQuote e.id ++
  ",\n    \"summary\": " ++ jsonQuote e.summary ++
  ",\n    \"description\": " ++ jsonQuote e.description ++
  ",\n    \"location\": " ++ jsonQuote e.location ++
  ",\n    \"startDate\": " ++ jsonQuote e.startDate ++
  ",\n    \"endDate\": " ++ jsonQuote e.endDate ++
  ",\n    \"allDay\": " ++ boolStr e.allDay ++
  ",\n    \"calendar\": " ++ jsonQuote e.calendar ++
  ",\n    \"url\": " ++ jsonQuote e.url ++
  ",\n    \"status\": " ++ jsonQuote e.status ++
  "\n  \x7d"

/-- `JSON.stringify(events, null, 2)`. -/
def renderEvents (l : List CalendarEvent) : String :=
  match l with
  | [] => "[]"
  | _ => "[\n" ++ String.intercalate ",\n" (l.map renderEvent) ++ "\n]"

/-- One calendar object at array-element depth. -/
def renderCalendar (c : CalendarInfo) : String :=
  "  \x7b\n    \"id\": " ++ jsonQuote c.id ++
  ",\n    \"name\": " ++ jsonQuote c.name ++
  ",\n    \"color\": " ++ jsonQuote c.color ++
  ",\n    \"writable\": " ++ boolStr c.writable ++
  "\n  \x7d"

/-- `JSON.stringify(calendars, null, 2)`. -/
def renderCalendars (l : List CalendarInfo) : String :=
  match l with
  | [] => "[]"
  | _ => "[\n" ++ String.intercalate ",\n" (l.map renderCalendar) ++ "\n]"

/-- `JSON.stringify(status, null, 2)` for `PermissionStatus`. -/
def renderPermissionStatus (p : PermissionStatus) : String :=
  "\x7b\n  \"calendar\": " ++ boolStr p.calendar ++
  ",\n  \"details\": " ++
  (match p.details with
   | [] => "[]"
   | ds => "[\n    " ++ String.intercalate ",\n    " (ds.map jsonQuote) ++ "\n  ]") ++
  "\n\x7d"

/-! ## Tool dispatcher and response envelope -/

/-- The argument bag of a tool call: each schema field either absent
(`undefined`) or present. -/
structure Args where
  summary : Option String := none
  start_date : Option String := none
  end_date : Option String := none
  all_day : Option Bool := none
  calendar : Option String := none
  description : Option String := none
  location : Option String := none
  url : Option String := none
  event_id : Option String := none
  query : Option String := none
  limit : Option Nat := none
  days : Option Nat := none

/-- `args.days || 7` from the dispatcher: `undefined` and `0` are
falsy. -/
def jsOrDefaultNat (o : Option Nat) (d : Nat) : Nat :=
  match o with
  | some n => if n = 0 then d else n
  | none => d

/-- Outcome of `handleToolCall`: a returned string, or a thrown
error's message. -/
inductive ToolOutcome where
  | ok (text : String)
  | thrown (msg : String)
deriving DecidableEq

/-- `handleToolCall` from the source (lines 681–765): the switch over
tool names, with each case's up-front required-argument check. -/
def handleToolCall (ex : Exec) (now : Int) (name : String) (args : Args) :
    ToolOutcome :=
  if name = "calendar_check_permissions" then
    .ok (renderPermissionStatus (checkPermissionsRun ex))
  else if name = "calendar_get_calendars" then
    match runAppleScriptJSONCalendars ex getCalendarsScript with
    | .ok cals => .ok (renderCalendars cals)
    | .error e => .thrown e
  else if name = "calendar_get_events" then
    match getEventsRun ex args.calendar args.start_date args.end_date args.limit now with
    | .ok evs => .ok (renderEvents evs)
    | .error e => .thrown e
  else if name = "calendar_create_event" then
    if !truthy args.summary || !truthy args.start_date then
      .thrown "summary and start_date are required"
    else
      .ok (renderOpResult (createEventRun ex
        { summary := args.summary.getD "", startDate := args.start_date.getD "",
          endDate := args.end_date, allDay := args.all_day.getD false,
          calendar := args.calendar, description := args.description,
          location := args.location, url := args.url }))
  else if name = "calendar_update_event" then
    if !truthy args.event_id || !truthy args.calendar then
      .thrown "event_id and calendar are required"
    else
      .ok (renderOpResult (updateEventRun ex (args.event_id.getD "")
        (args.calendar.getD "")
        { summary := args.summary, startDate := args.start_date,
          endDate := args.end_date, description := args.description,
          location := args.location, allDay := args.all_day }))
  else if name = "calendar_delete_event" then
    if !truthy args.event_id || !truthy args.calendar then
      .thrown "event_id and calendar are required"
    else
      .ok (renderOpResult (deleteEventRun ex (args.event_id.getD "")
        (args.calendar.getD "")))
  else if name = "calendar_search" then
    if !truthy args.query then .thrown "query is required"
    else
      match searchEventsRun ex (args.query.getD "") args.calendar args.limit now with
      | .ok evs => .ok (renderEvents evs)
      | .error e => .thrown e
  else if name = "calendar_get_today" then
    match getTodayEventsRun ex now with
    | .ok evs => .ok (renderEvents evs)
    | .error e => .thrown e
  else if name = "calendar_get_upcoming" then
    match getUpcomingEventsRun ex (jsOrDefaultNat args.days 7) now with
    | .ok evs => .ok (renderEvents evs)
    | .error e => .thrown e
  else .thrown ("Unknown tool: " ++ name)

/-- The response envelope of the transport handler (source lines
779–791).  The JavaScript omits `isError` on success; an absent flag
is modelled as `false`. -/
structure Envelope where
  text : String
  isError : Bool
deriving DecidableEq

/-- The `try`/`catch` of the `CallToolRequestSchema` handler: a
returned string is wrapped as-is, a thrown error as
`"Error: <message>"` with the error flag set. -/
def mkEnvelope : ToolOutcome → Envelope
  | .ok t => ⟨t, false⟩
  | .thrown m => ⟨"Error: " ++ m, true⟩

/-! ## Auxiliary lemmas and concrete fixtures -/

/-- An execution channel whose every command succeeds with empty
output. -/
def exNull : Exec :=
  ⟨fun _ => Except.ok "", fun _ => [], fun _ => []⟩

/-- An execution channel whose every command fails with the message
`"boom"`. -/
def exErr : Exec :=
  ⟨fun _ => Except.error "boom", fun _ => [], fun _ => []⟩

/-- A fixture event starting 2025-01-15 10:00 UTC. -/
def evA : CalendarEvent :=
  ⟨"ev-a", "Team Meeting", "", "", "2025-01-15T10:00:00Z",
   "2025-01-15T11:00:00Z", false, "Work", "", "confirmed"⟩

/-- A fixture event starting 2025-01-15 09:00 UTC. -/
def evB : CalendarEvent :=
  ⟨"ev-b", "Lunch with John", "", "", "2025-01-15T09:00:00Z",
   "2025-01-15T10:00:00Z", false, "Work", "", "confirmed"⟩

theorem optIntLE_trans (a b c : Option Int) :
    optIntLE a b = true → optIntLE b c = true → optIntLE a c = true := by
  cases a <;> cases b <;> cases c <;> simp [optIntLE]
  omega

theorem optIntLE_total (a b : Option Int) : (optIntLE a b || optIntLE b a) = true := by
  cases a <;> cases b <;> simp [optIntLE]
  omega

theorem eventLE_trans (a b c : CalendarEvent) :
    eventLE a b = true → eventLE b c = true → eventLE a c = true :=
  optIntLE_trans _ _ _

theorem eventLE_total (a b : CalendarEvent) :
    (eventLE a b || eventLE b a) = true :=
  optIntLE_total _ _

/-- Quote-only escaping round-trips through the literal denotation on
backslash-free, line-break-free character lists. -/
theorem readLit_escQ_of_safe (l : List Char)
    (h : ∀ c ∈ l, c ≠ '\\' ∧ c ≠ '\n' ∧ c ≠ '\r') :
    readLitChars (escQchars l) = some l := by
  induction l with
  | nil => rfl
  | cons c rest ih =>
    obtain ⟨h1, h2, h3⟩ := h c (List.mem_cons_self c rest)
    have ih' := ih fun x hx => h x (List.mem_cons_of_mem _ hx)
    by_cases hq : c = '"'
    · subst hq
      simp [escQchars, readLitChars, escInterp, ih']
    · simp [escQchars, hq, readLitChars, h1, h2, h3, ih']

/-- A failing execution channel surfaces through `runAppleScript` as
the translated message: the fixed authorization message when the
signal is present, the original message otherwise. -/
theorem runAppleScript_error_translated (run : String → Except String String)
    (script msg : String) (h : ∀ c, run c = Except.error msg) :
    runAppleScript run script =
      Except.error (if strContains msg "Not authorized" then authDeniedMsg else msg) := by
  cases hc : strContains msg "Not authorized" <;> simp [runAppleScript, h, hc]

/-! ## Claims -/

/-- **C1** (corrected), counterexample: the script escaping applied
before embedding (`.replace(/"/g, '\\"')`) does not escape
backslashes, so the two-character string `\n` is embedded as the text
`\n`, which the quoted literal denotes as a single newline — not the
original string. -/
theorem c1_counterexample :
    readLitStr (escapeQuotesOnly "\\n") = some "\n" ∧ ("\n" : String) ≠ "\\n" := by
  decide

/-- **C1** (corrected), amended claim: the escaping replaces each
quote character by backslash-quote and nothing else; the embedded
quoted literal denotes exactly the original string for every string
containing no backslash and no line break — strings containing a
backslash (and embedded newlines, which are never mapped to an
escaped-newline token) are not protected. -/
theorem c1_escape_roundtrip_on_safe_strings (s : String)
    (h : ∀ c ∈ s.data, c ≠ '\\' ∧ c ≠ '\n' ∧ c ≠ '\r') :
    readLitStr (escapeQuotesOnly s) = some s := by
  simp [readLitStr, escapeQuotesOnly, readLit_escQ_of_safe s.data h]

theorem c1_escape_roundtrip_witness :
    (∀ c ∈ ("Team \"sync\"" : String).data, c ≠ '\\' ∧ c ≠ '\n' ∧ c ≠ '\r') ∧
    readLitStr (escapeQuotesOnly "Team \"sync\"") = some "Team \"sync\"" :=
  ⟨by decide, c1_escape_roundtrip_on_safe_strings "Team \"sync\"" (by decide)⟩

/-- **C2** (code bug): with the `calendar` argument absent,
`getEvents` interpolates the text `undefined` into the generated
script's branch condition `if "${calendar}" is "" then`, so the
condition is false and the script targets `{calendar ""}` — a
calendar named by the empty string — instead of all calendars, which
both the dead `calendarFilter` binding and the tool description
intend. -/
theorem c2_absent_calendar_targets_empty_name :
    jsInterpOpt none = "undefined" ∧
    getEventsTargets none = TargetCals.named "" ∧
    getEventsTargets none ≠ TargetCals.all ∧
    strContains
      (getEventsScript none (getDateRange 1736899200000 1739491200000) 100)
      "if \"undefined\" is \"\" then" = true := by
  decide

/-- **C5** (confirmed): an execution failure whose message contains
the `"Not authorized"` signal is translated to the fixed
grant-access-in-privacy-settings message; every other failure
propagates with its message unchanged (and success output is
trimmed). -/
theorem c5_authorization_translation (s out msg : String) :
    runAppleScript (fun _ => Except.error msg) s =
      Except.error (if strContains msg "Not authorized" then authDeniedMsg else msg) ∧
    runAppleScript (fun _ => Except.ok out) s = Except.ok (jsTrim out) := by
  constructor
  · cases hc : strContains msg "Not authorized" <;> simp [runAppleScript, hc]
  · rfl

/-- **C6** (confirmed): `parseDate` is total — it returns an instant
or `none`, never raising — and on the spec's concrete inputs: `none`
for `""`, `"invalid"`, `"not-a-date"`; the exact instants for
`"2025-01-15"`, `"2025-01-15T10:00:00Z"`, `"2025-01-15T10:00:00.000Z"`. -/
theorem c6_parseDate_examples :
    parseDate "" = none ∧
    parseDate "invalid" = none ∧
    parseDate "not-a-date" = none ∧
    parseDate "2025-01-15" = some 1736899200000 ∧
    parseDate "2025-01-15T10:00:00Z" = some 1736935200000 ∧
    parseDate "2025-01-15T10:00:00.000Z" = some 1736935200000 := by
  decide

/-- **C7** (confirmed): `formatISODate` is total and returns the empty
string on the empty string and on the `"missing value"` sentinel; any
other input is re-rendered as ISO-8601 UTC with millisecond precision
when it parses, and maps to the empty string when it does not. -/
theorem c7_formatISODate_cases (s bad : String) (t : Int)
    (hs1 : s ≠ "") (hs2 : s ≠ "missing value") (hst : parseDate s = some t)
    (hb1 : bad ≠ "") (hb2 : bad ≠ "missing value") (hbn : parseDate bad = none) :
    formatISODate "" = "" ∧
    formatISODate "missing value" = "" ∧
    formatISODate s = toISOString t ∧
    formatISODate bad = "" ∧
    formatISODate "2025-01-15" = "2025-01-15T00:00:00.000Z" := by
  have hst' : jsDateParse s = some t := hst
  have hbn' : jsDateParse bad = none := hbn
  refine ⟨rfl, rfl, ?_, ?_, by decide⟩
  · simp [formatISODate, hs1, hs2, hst']
  · simp [formatISODate, hb1, hb2, hbn']

theorem c7_formatISODate_witness :
    ("2025-01-15T10:00:00Z" : String) ≠ "" ∧
    ("2025-01-15T10:00:00Z" : String) ≠ "missing value" ∧
    parseDate "2025-01-15T10:00:00Z" = some 1736935200000 ∧
    ("not-a-date" : String) ≠ "" ∧
    ("not-a-date" : String) ≠ "missing value" ∧
    parseDate "not-a-date" = none ∧
    (formatISODate "" = "" ∧
     formatISODate "missing value" = "" ∧
     formatISODate "2025-01-15T10:00:00Z" = toISOString 1736935200000 ∧
     formatISODate "not-a-date" = "" ∧
     formatISODate "2025-01-15" = "2025-01-15T00:00:00.000Z") :=
  ⟨by decide, by decide, by decide, by decide, by decide, by decide,
   c7_formatISODate_cases "2025-01-15T10:00:00Z" "not-a-date" 1736935200000
     (by decide) (by decide) (by decide) (by decide) (by decide) (by decide)⟩

/-- **C4** (confirmed): each tool with required arguments rejects a
call missing (or, per JavaScript falsiness, empty) any of them, for
every execution channel — so before the Execution Adapter is invoked —
with the fixed message, and each message names the missing fields.
Each tool is judged on its own argument bag under its own hypothesis
only, so every call the claim covers instantiates its conjunct — in
particular an `update_event` call that supplies `summary` and
`start_date` but lacks `event_id`. -/
theorem c4_required_argument_validation (ex : Exec) (now : Int)
    (argsC argsU argsD argsS : Args)
    (h1 : truthy argsC.summary = false ∨ truthy argsC.start_date = false)
    (h2 : truthy argsU.event_id = false ∨ truthy argsU.calendar = false)
    (h3 : truthy argsD.event_id = false ∨ truthy argsD.calendar = false)
    (h4 : truthy argsS.query = false) :
    handleToolCall ex now "calendar_create_event" argsC =
      ToolOutcome.thrown "summary and start_date are required" ∧
    handleToolCall ex now "calendar_update_event" argsU =
      ToolOutcome.thrown "event_id and calendar are required" ∧
    handleToolCall ex now "calendar_delete_event" argsD =
      ToolOutcome.thrown "event_id and calendar are required" ∧
    handleToolCall ex now "calendar_search" argsS =
      ToolOutcome.thrown "query is required" ∧
    strContains "summary and start_date are required" "summary" = true ∧
    strContains "summary and start_date are required" "start_date" = true ∧
    strContains "event_id and calendar are required" "event_id" = true ∧
    strContains "event_id and calendar are required" "calendar" = true ∧
    strContains "query is required" "query" = true := by
  refine ⟨?_, ?_, ?_, ?_, by decide, by decide, by decide, by decide, by decide⟩
  · rcases h1 with h | h <;> simp [handleToolCall, h]
  · rcases h2 with h | h <;> simp [handleToolCall, h]
  · rcases h3 with h | h <;> simp [handleToolCall, h]
  · simp [handleToolCall, h4]

/-- The argument bag of an `update_event` call that supplies update
fields but no `event_id`. -/
def argsRetitle : Args :=
  { summary := some "New title", start_date := some "2025-02-01T09:00:00Z",
    calendar := some "Work" }

theorem c4_required_argument_validation_witness :
    handleToolCall exNull 0 "calendar_create_event" {} =
      ToolOutcome.thrown "summary and start_date are required" ∧
    handleToolCall exNull 0 "calendar_update_event" argsRetitle =
      ToolOutcome.thrown "event_id and calendar are required" ∧
    handleToolCall exNull 0 "calendar_delete_event" { calendar := some "Work" } =
      ToolOutcome.thrown "event_id and calendar are required" ∧
    handleToolCall exNull 0 "calendar_search" { calendar := some "Work" } =
      ToolOutcome.thrown "query is required" ∧
    strContains "summary and start_date are required" "summary" = true ∧
    strContains "summary and start_date are required" "start_date" = true ∧
    strContains "event_id and calendar are required" "event_id" = true ∧
    strContains "event_id and calendar are required" "calendar" = true ∧
    strContains "query is required" "query" = true :=
  c4_required_argument_validation exNull 0 {} argsRetitle
    { calendar := some "Work" } { calendar := some "Work" }
    (Or.inl (by decide)) (Or.inl (by decide)) (Or.inl (by decide)) (by decide)

/-- **C8** (corrected), counterexample: a supplied `start_date` that
does not parse produces no set-statement at all — here it is the only
supplied field, so the accumulated update is empty and the operation
fails with `"No updates provided"` even though an update field was
supplied, contradicting "a set-statement exactly for each update field
that was supplied". -/
theorem c8_counterexample :
    ({ startDate := some "not-a-date" } : UpdateFields).startDate = some "not-a-date" ∧
    updateLines { startDate := some "not-a-date" } = [] ∧
    updateEventRun exNull "evt-1" "Work" { startDate := some "not-a-date" } =
      { success := false, id := none, error := some "No updates provided" } := by
  decide

/-- Whether a supplied start/end date argument yields a set-statement:
it must be non-empty and parse. -/
def dateLineEmitted (o : Option String) : Bool :=
  match o with
  | some s => !(s == "") && (parseDate s).isSome
  | none => false

theorem optLine_length (o : Option String) (f : String → String) :
    (optLine o f).length = if o.isSome then 1 else 0 := by
  cases o <;> simp [optLine]

theorem dateLine_length (o : Option String) (f : Int → String) :
    (dateLine o f).length = if dateLineEmitted o then 1 else 0 := by
  cases o with
  | none => simp [dateLine, dateLineEmitted]
  | some s =>
    by_cases he : s = ""
    · simp [dateLine, dateLineEmitted, he]
    · cases hp : parseDate s <;> simp [dateLine, dateLineEmitted, he, hp]

theorem boolLine_length (o : Option Bool) (f : Bool → String) :
    (boolLine o f).length = if o.isSome then 1 else 0 := by
  cases o <;> simp [boolLine]

/-- **C8** (corrected), amended claim: the generated update contains
one set-statement for each supplied summary, description, location or
all_day field, and one for each start_date/end_date field that is
supplied non-empty *and parses as a date* (a falsy or unparseable date
argument is silently omitted); whenever zero set-statements result —
in particular when zero update fields are supplied — the operation
fails with `"No updates provided"` under every execution channel,
i.e. without invoking the Execution Adapter. -/
theorem c8_update_statement_characterization (u u0 : UpdateFields)
    (eid cal : String) (ex : Exec) (h0 : updateLines u0 = []) :
    (updateLines u).length =
      ((if u.summary.isSome then 1 else 0) +
       (if u.description.isSome then 1 else 0) +
       (if u.location.isSome then 1 else 0) +
       (if dateLineEmitted u.startDate then 1 else 0) +
       (if dateLineEmitted u.endDate then 1 else 0) +
       (if u.allDay.isSome then 1 else 0)) ∧
    updateEventRun ex eid cal u0 =
      { success := false, id := none, error := some "No updates provided" } := by
  constructor
  · simp [updateLines, optLine_length, dateLine_length, boolLine_length]
    omega
  · simp [updateEventRun, h0]

theorem c8_update_statement_characterization_witness :
    updateLines { startDate := some "junk" } = [] ∧
    ((updateLines { summary := some "New title", startDate := some "2025-01-15" } :
        List String).length =
      ((if (some "New title" : Option String).isSome then 1 else 0) +
       (if (none : Option String).isSome then 1 else 0) +
       (if (none : Option String).isSome then 1 else 0) +
       (if dateLineEmitted (some "2025-01-15") then 1 else 0) +
       (if dateLineEmitted (none : Option String) then 1 else 0) +
       (if (none : Option Bool).isSome then 1 else 0)) ∧
     updateEventRun exErr "evt-1" "Work" { startDate := some "junk" } =
       { success := false, id := none, error := some "No updates provided" }) :=
  ⟨by decide,
   c8_update_statement_characterization
     { summary := some "New title", startDate := some "2025-01-15" }
     { startDate := some "junk" } "evt-1" "Work" exErr (by decide)⟩

/-- **C10** (corrected), counterexample: `get_events` with
`start_date` supplied as the empty string — which does not parse as a
date — does not raise `"Invalid date format"`: the empty string is
falsy, so the default window is applied and the call succeeds. -/
theorem c10_counterexample :
    parseDate "" = none ∧
    truthy (some "") = false ∧
    geStart (some "") 5 = some 5 ∧
    handleToolCall exNull 0 "calendar_get_events" { start_date := some "" } =
      ToolOutcome.ok "[]" := by
  refine ⟨by decide, by decide, by decide, ?_⟩
  have hrun : runAppleScriptJSONEvents exNull
      (getEventsScript none (getDateRange 0 2592000000) 100) = .ok [] := by
    simp [runAppleScriptJSONEvents, runAppleScript, exNull, jsTrim]
  simp [handleToolCall, getEventsRun, geStart, geEnd, truthy, hrun,
    postProcessEvents, renderEvents]

/-- **C10** (corrected), amended claim: whenever the resolved start or
end boundary is null — i.e. a supplied *non-empty* `start_date` or
`end_date` fails to parse — `get_events` throws
`"Invalid date format"` under every execution channel (before the
Execution Adapter), and the dispatcher envelope is
`"Error: Invalid date format"` with the error flag set; the default
boundary is applied whenever the argument is falsy, i.e. absent *or
the empty string*, the latter despite being unparseable. -/
theorem c10_invalid_date_behaviour (ex : Exec) (now : Int) (args args2 : Args)
    (h : geStart args.start_date now = none ∨ geEnd args.end_date now = none)
    (h2 : truthy args2.start_date = false) :
    handleToolCall ex now "calendar_get_events" args =
      ToolOutcome.thrown "Invalid date format" ∧
    mkEnvelope (handleToolCall ex now "calendar_get_events" args) =
      ⟨"Error: Invalid date format", true⟩ ∧
    geStart args2.start_date now = some now := by
  have hthrow : handleToolCall ex now "calendar_get_events" args =
      ToolOutcome.thrown "Invalid date format" := by
    rcases h with h | h
    · simp [handleToolCall, getEventsRun, h]
    · cases hs : geStart args.start_date now <;>
        simp [handleToolCall, getEventsRun, h, hs]
  refine ⟨hthrow, ?_, ?_⟩
  · rw [hthrow]; rfl
  · simp [geStart, h2]

theorem c10_invalid_date_behaviour_witness :
    (geStart (some "junk") 0 = none ∨ geEnd (none : Option String) 0 = none) ∧
    truthy (none : Option String) = false ∧
    (handleToolCall exNull 0 "calendar_get_events" { start_date := some "junk" } =
       ToolOutcome.thrown "Invalid date format" ∧
     mkEnvelope (handleToolCall exNull 0 "calendar_get_events" { start_date := some "junk" }) =
       ⟨"Error: Invalid date format", true⟩ ∧
     geStart (none : Option String) 0 = some 0) :=
  ⟨Or.inl (by decide), by decide,
   c10_invalid_date_behaviour exNull 0 { start_date := some "junk" } {}
     (Or.inl (by decide)) (by decide)⟩

/-- **C9** (confirmed): when required-argument validation passes but
the execution channel fails, create/update/delete catch the failure
and return it inside the JSON payload as a `success: false` record
carrying the (possibly authorization-translated) message, so the
envelope's error flag stays unset — unlike validation failures and
unknown tool names, which are thrown and wrapped as an
`"Error: <message>"` envelope with the flag set.  Each tool is judged
on its own argument bag under its own hypotheses only: a plain
`delete_event` call carries just `event_id` and `calendar`, an
update may supply a single field, and the adapter failure message is
arbitrary — authorization failures included. -/
theorem c9_adapter_failure_envelope (ex : Exec) (now : Int)
    (argsC argsU argsD : Args) (msg : String)
    (hrun : ∀ c, ex.run c = Except.error msg)
    (hsum : truthy argsC.summary = true)
    (hsd : truthy argsC.start_date = true)
    (hsp : (parseDate (argsC.start_date.getD "")).isSome = true)
    (hep : truthy argsC.end_date = true → (parseDate (argsC.end_date.getD "")).isSome = true)
    (huid : truthy argsU.event_id = true)
    (hucal : truthy argsU.calendar = true)
    (hul : updateLines ⟨argsU.summary, argsU.start_date, argsU.end_date,
        argsU.description, argsU.location, argsU.all_day⟩ ≠ [])
    (hdid : truthy argsD.event_id = true)
    (hdcal : truthy argsD.calendar = true) :
    mkEnvelope (handleToolCall ex now "calendar_create_event" argsC) =
      ⟨renderOpResult
          { success := false, id := none,
            error := some (if strContains msg "Not authorized" then authDeniedMsg else msg) },
        false⟩ ∧
    mkEnvelope (handleToolCall ex now "calendar_update_event" argsU) =
      ⟨renderOpResult
          { success := false, id := none,
            error := some (if strContains msg "Not authorized" then authDeniedMsg else msg) },
        false⟩ ∧
    mkEnvelope (handleToolCall ex now "calendar_delete_event" argsD) =
      ⟨renderOpResult
          { success := false, id := none,
            error := some (if strContains msg "Not authorized" then authDeniedMsg else msg) },
        false⟩ ∧
    mkEnvelope (handleToolCall ex now "calendar_create_event" {}) =
      ⟨"Error: summary and start_date are required", true⟩ ∧
    mkEnvelope (handleToolCall ex now "nonexistent_tool" argsD) =
      ⟨"Error: Unknown tool: nonexistent_tool", true⟩ := by
  have hras : ∀ script, runAppleScript ex.run script =
      Except.error (if strContains msg "Not authorized" then authDeniedMsg else msg) :=
    fun script => runAppleScript_error_translated ex.run script msg hrun
  obtain ⟨ts, hts⟩ := Option.isSome_iff_exists.mp hsp
  refine ⟨?_, ?_, ?_, ?_, ?_⟩
  · cases he : truthy argsC.end_date
    · simp [handleToolCall, hsum, hsd, createEventRun, hts, he, hras, mkEnvelope]
    · obtain ⟨te, hte⟩ := Option.isSome_iff_exists.mp (hep he)
      simp [handleToolCall, hsum, hsd, createEventRun, hts, he, hte, hras, mkEnvelope]
  · simp [handleToolCall, huid, hucal, updateEventRun, hul, hras, mkEnvelope]
  · simp [handleToolCall, hdid, hdcal, deleteEventRun, hras, mkEnvelope]
  · simp [handleToolCall, truthy, mkEnvelope]
  · simp [handleToolCall, mkEnvelope]

/-- A valid `create_event` argument bag. -/
def argsCreate9 : Args :=
  { summary := some "Team sync", start_date := some "2025-01-15T10:00:00Z" }

/-- A location-only `update_event` argument bag. -/
def argsUpdate9 : Args :=
  { event_id := some "evt-9", calendar := some "Work", location := some "HQ" }

/-- A plain `delete_event` argument bag: `event_id` and `calendar`
and nothing else. -/
def argsDelete9 : Args :=
  { event_id := some "evt-9", calendar := some "Work" }

theorem c9_adapter_failure_envelope_witness :
    (∀ c, exErr.run c = Except.error "boom") ∧
    (mkEnvelope (handleToolCall exErr 0 "calendar_create_event" argsCreate9) =
       ⟨renderOpResult
           { success := false, id := none,
             error := some (if strContains "boom" "Not authorized" then authDeniedMsg else "boom") },
         false⟩ ∧
     mkEnvelope (handleToolCall exErr 0 "calendar_update_event" argsUpdate9) =
       ⟨renderOpResult
           { success := false, id := none,
             error := some (if strContains "boom" "Not authorized" then authDeniedMsg else "boom") },
         false⟩ ∧
     mkEnvelope (handleToolCall exErr 0 "calendar_delete_event" argsDelete9) =
       ⟨renderOpResult
           { success := false, id := none,
             error := some (if strContains "boom" "Not authorized" then authDeniedMsg else "boom") },
         false⟩ ∧
     mkEnvelope (handleToolCall exErr 0 "calendar_create_event" {}) =
       ⟨"Error: summary and start_date are required", true⟩ ∧
     mkEnvelope (handleToolCall exErr 0 "nonexistent_tool" argsDelete9) =
       ⟨"Error: Unknown tool: nonexistent_tool", true⟩) :=
  ⟨fun _ => rfl,
   c9_adapter_failure_envelope exErr 0 argsCreate9 argsUpdate9 argsDelete9 "boom"
     (fun _ => rfl) (by decide) (by decide) (by decide) (by decide) (by decide)
     (by decide) (by decide) (by decide) (by decide)⟩

/-- **C3** (confirmed): after the per-item ISO normalization, the
event list returned by `getEvents`/`searchEvents` is sorted by
non-decreasing start instant (assuming every normalized start field
parses — otherwise the JavaScript comparator is fed `NaN` and the
engine guarantees no order), and the stable sort preserves, for every
key, the original relative order of the items carrying that key. -/
theorem c3_sorted_and_stable (l : List CalendarEvent) (k : Option Int)
    (h : ∀ e ∈ l, (parseDate (formatISODate e.startDate)).isSome = true) :
    List.Pairwise
      (fun a b => ∃ ta tb, jsStartKey a = some ta ∧ jsStartKey b = some tb ∧ ta ≤ tb)
      (postProcessEvents l) ∧
    (postProcessEvents l).filter (fun e => jsStartKey e == k) =
      (l.map normalizeEventDates).filter (fun e => jsStartKey e == k) := by
  have hkeys : ∀ e ∈ l.map normalizeEventDates, (jsStartKey e).isSome = true := by
    intro e he
    obtain ⟨x, hx, rfl⟩ := List.mem_map.mp he
    simpa [jsStartKey, normalizeEventDates] using h x hx
  constructor
  · have hp := List.sorted_mergeSort eventLE_trans eventLE_total
      (l.map normalizeEventDates)
    refine List.Pairwise.imp_of_mem ?_ hp
    intro a b ha hb hab
    have ha' : a ∈ l.map normalizeEventDates := List.mem_mergeSort.mp ha
    have hb' : b ∈ l.map normalizeEventDates := List.mem_mergeSort.mp hb
    obtain ⟨ta, hta⟩ := Option.isSome_iff_exists.mp (hkeys a ha')
    obtain ⟨tb, htb⟩ := Option.isSome_iff_exists.mp (hkeys b hb')
    refine ⟨ta, tb, hta, htb, ?_⟩
    simpa [eventLE, hta, htb, optIntLE] using hab
  · simp only [postProcessEvents]
    have hcsub : List.Sublist
        ((l.map normalizeEventDates).filter (fun e => jsStartKey e == k))
        (l.map normalizeEventDates) := List.filter_sublist _
    have hcpw : List.Pairwise (fun a b => eventLE a b = true)
        ((l.map normalizeEventDates).filter (fun e => jsStartKey e == k)) := by
      refine List.pairwise_of_forall_mem_list ?_
      intro a hamem b hbmem
      have hak : jsStartKey a = k := by
        have := (List.mem_filter.mp hamem).2
        simpa using this
      have hbk : jsStartKey b = k := by
        have := (List.mem_filter.mp hbmem).2
        simpa using this
      simp only [eventLE, hak, hbk]
      cases k <;> simp [optIntLE]
    have hsub2 := List.sublist_mergeSort eventLE_trans eventLE_total hcpw hcsub
    have hfeq : ((l.map normalizeEventDates).filter (fun e => jsStartKey e == k)).filter
        (fun e => jsStartKey e == k) =
        (l.map normalizeEventDates).filter (fun e => jsStartKey e == k) :=
      List.filter_eq_self.mpr (fun a ha => (List.mem_filter.mp ha).2)
    have hsub3 : List.Sublist
        ((l.map normalizeEventDates).filter (fun e => jsStartKey e == k))
        (((l.map normalizeEventDates).mergeSort eventLE).filter (fun e => jsStartKey e == k)) := by
      have := List.Sublist.filter (fun e => jsStartKey e == k) hsub2
      rwa [hfeq] at this
    have hlen : (((l.map normalizeEventDates).mergeSort eventLE).filter
        (fun e => jsStartKey e == k)).length =
        ((l.map normalizeEventDates).filter (fun e => jsStartKey e == k)).length :=
      ((List.mergeSort_perm (l.map normalizeEventDates) eventLE).filter _).length_eq
    exact (hsub3.eq_of_length hlen.symm).symm

theorem c3_sorted_and_stable_witness :
    (∀ e ∈ [evA, evB], (parseDate (formatISODate e.startDate)).isSome = true) ∧
    (List.Pairwise
       (fun a b => ∃ ta tb, jsStartKey a = some ta ∧ jsStartKey b = some tb ∧ ta ≤ tb)
       (postProcessEvents [evA, evB]) ∧
     (postProcessEvents [evA, evB]).filter (fun e => jsStartKey e == some 1736931600000) =
       ([evA, evB].map normalizeEventDates).filter (fun e => jsStartKey e == some 1736931600000)) :=
  ⟨by decide, c3_sorted_and_stable [evA, evB] (some 1736931600000) (by decide)⟩

end CalendarMCP

